import Mathlib

set_option maxHeartbeats 1000000

/-!
Shallow embedding of src/manage_obs_env.rs of ts_observing_environment.

The file embeds the CLI configuration struct ManageObsEnv, the trait
ManageObsEnvCli as implemented for it, the Action and LogLevel value enums,
and the dispatcher pub fn run.  run drives an ObservingEnvironment
collaborator whose source (src/observing_environment.rs) is not part of the
provided sources; its operations are therefore modelled by their observable
results (structure ObsEnvBehavior below), over which the theorems quantify.
run is given as a pure function returning its Result together with the trace
of observable events: collaborator calls, and log records that pass the
max-level filter installed from the configured log level.
-/

namespace ObsEnvSpec

/-- Log levels of the CLI: enum LogLevel of src/manage_obs_env.rs, in source
order Trace, Debug, Info, Warn, Error. -/
inductive LogLevel
  | Trace
  | Debug
  | Info
  | Warn
  | Error
  deriving DecidableEq, Repr

/-- Numeric rank of the log::LevelFilter that run installs for a LogLevel,
using the ordering of the log crate: Error = 1 < Warn = 2 < Info = 3 <
Debug = 4 < Trace = 5.  A record of rank r is emitted iff r is at most the
installed maximum. -/
def LogLevel.toMaxLevel : LogLevel → Nat
  | LogLevel.Trace => 5
  | LogLevel.Debug => 4
  | LogLevel.Info => 3
  | LogLevel.Warn => 2
  | LogLevel.Error => 1

/-- Actions of the CLI: enum Action of src/manage_obs_env.rs. -/
inductive Action
  | Setup
  | PrintConfig
  | Reset
  | ShowCurrentVersions
  | ShowOriginalVersions
  | CheckoutBranch
  | CheckoutVersion
  deriving DecidableEq, Repr

/-- Modelled from the spec: enum Repos of src/repos.rs is not under src/.
Per the spec the Registry is a closed set of repository identities, each with
a canonical name; an identity is modelled by its canonical name and get_name
returns it. -/
structure Repos where
  name : String
  deriving DecidableEq, Repr

/-- Canonical name of a Registry identity (Repos::get_name). -/
def Repos.get_name (r : Repos) : String := r.name

/-- Error raised by ManageObsEnvCli::get_action, ObsEnvError::ERROR of
src/error.rs as used in src/manage_obs_env.rs. -/
inductive ObsEnvError
  | ERROR (msg : String)
  deriving DecidableEq, Repr

/-- Modelled from the spec: a boxed dynamic error (Box of dyn Error) as run
returns it; either the ObsEnvError raised by get_action, or an error reported
by a collaborator, identified by its Debug rendering. -/
inductive DynError
  | obsEnv (e : ObsEnvError)
  | backend (fmt : String)
  deriving DecidableEq, Repr

/-- Debug rendering of a boxed error, as interpolated into log records. -/
def DynError.debugFmt : DynError → String
  | DynError.obsEnv (ObsEnvError.ERROR m) => "ERROR(" ++ m ++ ")"
  | DynError.backend f => f

/-- Modelled from the spec: a RepositoryIdentity materialized at a filesystem
path.  run only uses its path() accessor. -/
structure RepositoryInstance where
  path : String
  deriving DecidableEq, Repr

/-- CLI configuration: struct ManageObsEnv of src/manage_obs_env.rs, fields in
source order. -/
structure ManageObsEnv where
  action : Action
  log_level : LogLevel
  env_path : String
  repository : Option Repos
  branch_name : String
  base_env_branch_name : String
  deriving DecidableEq, Repr

/-- Clap default values of the optional arguments, from the default_value
attributes of struct ManageObsEnv: log-level is "debug", env-path is
"/net/obs-env/auto_base_packages", repository is absent, branch-name is the
empty string, base-env-branch-name is "main".  Only action has no default. -/
def defaultManageObsEnv (a : Action) : ManageObsEnv :=
  ⟨a, LogLevel.Debug, "/net/obs-env/auto_base_packages", none, "", "main"⟩

/-- ManageObsEnvCli::get_action for ManageObsEnv: the CheckoutBranch action
without a repository is a configuration error; every other case returns the
configured action. -/
def ManageObsEnv.get_action (c : ManageObsEnv) : Except DynError Action :=
  match c.action with
  | Action.CheckoutBranch =>
    if c.repository.isNone then
      Except.error (DynError.obsEnv (ObsEnvError.ERROR
        "Checkout branch action requires a repository, none given"))
    else
      Except.ok c.action
  | _ => Except.ok c.action

/-- ManageObsEnvCli::get_log_level. -/
def ManageObsEnv.get_log_level (c : ManageObsEnv) : LogLevel := c.log_level

/-- ManageObsEnvCli::get_env_path. -/
def ManageObsEnv.get_env_path (c : ManageObsEnv) : String := c.env_path

/-- ManageObsEnvCli::get_branch_name: reads the branch_name field. -/
def ManageObsEnv.get_branch_name (c : ManageObsEnv) : String := c.branch_name

/-- ManageObsEnvCli::get_version: also reads the branch_name field. -/
def ManageObsEnv.get_version (c : ManageObsEnv) : String := c.branch_name

/-- ManageObsEnvCli::get_repository_name: the configured repository's canonical
name, or the empty string when no repository was given. -/
def ManageObsEnv.get_repository_name (c : ManageObsEnv) : String :=
  match c.repository with
  | some repository => repository.get_name
  | none => ""

/-- ManageObsEnvCli::get_base_env_source_repo: reads base_env_branch_name. -/
def ManageObsEnv.get_base_env_source_repo (c : ManageObsEnv) : String :=
  c.base_env_branch_name

/-- Observable events of one invocation of run: log records that pass the
installed max-level filter, and calls into the ObservingEnvironment
collaborator. -/
inductive Event
  | logInfo (msg : String)
  | logDebug (msg : String)
  | logError (msg : String)
  | callCreatePath
  | callCloneRepositories
  | callSummarize
  | callResetBaseEnvironment (branch : String)
  | callGetCurrentEnvVersions
  | callGetBaseEnvVersions (branch : String)
  | callCheckoutBranch (repo branch : String)
  | callResetIndexToVersion (repo version : String)
  deriving DecidableEq, Repr

/-- Whether an event is a call into the ObservingEnvironment collaborator. -/
def Event.isCall : Event → Bool
  | Event.logInfo _ => false
  | Event.logDebug _ => false
  | Event.logError _ => false
  | _ => true

/-- Emission of a log info record: kept iff rank 3 is within the installed
maximum level. -/
def emitInfo (lvl : LogLevel) (msg : String) : List Event :=
  if 3 ≤ lvl.toMaxLevel then [Event.logInfo msg] else []

/-- Emission of a log debug record: kept iff rank 4 is within the installed
maximum level. -/
def emitDebug (lvl : LogLevel) (msg : String) : List Event :=
  if 4 ≤ lvl.toMaxLevel then [Event.logDebug msg] else []

/-- Emission of a log error record: kept iff rank 1 is within the installed
maximum level (always true for the five levels run can install). -/
def emitError (lvl : LogLevel) (msg : String) : List Event :=
  if 1 ≤ lvl.toMaxLevel then [Event.logError msg] else []

/-- Modelled from the spec: struct ObservingEnvironment of
src/observing_environment.rs is not under src/.  The dispatcher only observes
the results of its operations, so the collaborator is modelled by those
results, as functions of the arguments run passes: create_path and the batch
collections take no argument run varies, reset_base_environment and
get_base_env_versions take the reference branch name, and the two
single-repository operations take the repository name and the branch or
version string.  reset_base_environment returns its failures-only error list;
get_base_env_versions returns a name-to-version mapping or a resolver
error. -/
structure ObsEnvBehavior where
  create_path : Except DynError Unit
  clone_repositories : List (Except DynError RepositoryInstance)
  summarize : String
  reset_base_environment : String → Except (List DynError) Unit
  get_current_env_versions : List (String × Except DynError String)
  get_base_env_versions : String → Except DynError (List (String × String))
  checkout_branch : String → String → Except DynError Unit
  reset_index_to_version : String → String → Except DynError Unit

/-- One iteration of the Setup clone report loop: a cloned repository is
reported with its path as an info record, a failed clone as an error
record. -/
def cloneReport (lvl : LogLevel) : Except DynError RepositoryInstance → List Event
  | Except.ok repo => emitInfo lvl repo.path
  | Except.error e => emitError lvl ("Failed to clone: " ++ e.debugFmt)

/-- Messages of the error records one clone outcome contributes: none on
success, one on failure. -/
def cloneFailMsg : Except DynError RepositoryInstance → List String
  | Except.ok _ => []
  | Except.error e => ["Failed to clone: " ++ e.debugFmt]

/-- One iteration of the ShowCurrentVersions report loop: a queried version is
reported as an info record, a failure as an error record, both tagged with
the repository name. -/
def versionReport (lvl : LogLevel) : String × Except DynError String → List Event
  | (name, Except.ok version) => emitInfo lvl (name ++ ": " ++ version)
  | (name, Except.error e) => emitError lvl (name ++ ": " ++ e.debugFmt)

/-- Messages of the error records one version query contributes: none on
success, one (name plus error detail) on failure. -/
def versionFailMsg : String × Except DynError String → List String
  | (_, Except.ok _) => []
  | (name, Except.error e) => [name ++ ": " ++ e.debugFmt]

/-- Setup arm of run: create the destination path (propagating its error with
the question-mark operator), then clone every repository and report each
outcome, failures as error records. -/
def runSetup (lvl : LogLevel) (env : ObsEnvBehavior) :
    Except DynError Unit × List Event :=
  let ev0 := emitInfo lvl "Executing Setup..." ++ emitDebug lvl "Creating path..."
    ++ [Event.callCreatePath]
  match env.create_path with
  | Except.error e => (Except.error e, ev0)
  | Except.ok _ =>
    let ev1 := ev0 ++ emitDebug lvl "Cloning repositories..."
      ++ [Event.callCloneRepositories]
      ++ emitInfo lvl "The following repositories where cloned: "
    let evLoop := env.clone_repositories.flatMap (cloneReport lvl)
    (Except.ok (), ev1 ++ evLoop)

/-- Reset arm of run: a failures list from reset_base_environment is reported
with a count header and one error record per failure, and then swallowed; run
returns Ok either way. -/
def runReset (lvl : LogLevel) (env : ObsEnvBehavior) (base : String) :
    Except DynError Unit × List Event :=
  let ev0 := emitInfo lvl "Resetting Observing environment..."
    ++ [Event.callResetBaseEnvironment base]
  match env.reset_base_environment base with
  | Except.error errs =>
    (Except.ok (), ev0
      ++ emitError lvl ("Error resetting " ++ toString errs.length ++ " repositories.")
      ++ errs.flatMap (fun err => emitError lvl err.debugFmt))
  | Except.ok _ =>
    (Except.ok (), ev0 ++ emitInfo lvl "All repositories set to they base versions.")

/-- ShowCurrentVersions arm of run: one record per repository, successes as
info records and failures as error records. -/
def runShowCurrentVersions (lvl : LogLevel) (env : ObsEnvBehavior) :
    Except DynError Unit × List Event :=
  let ev0 := emitInfo lvl "Current environment versions:"
    ++ [Event.callGetCurrentEnvVersions]
  let evLoop := env.get_current_env_versions.flatMap (versionReport lvl)
  (Except.ok (), ev0 ++ evLoop)

/-- ShowOriginalVersions arm of run: on success one info record per mapping
entry; a resolver error is reported as a single error record and swallowed. -/
def runShowOriginalVersions (lvl : LogLevel) (env : ObsEnvBehavior) (base : String) :
    Except DynError Unit × List Event :=
  let ev0 := [Event.callGetBaseEnvVersions base]
  match env.get_base_env_versions base with
  | Except.ok base_env_versions =>
    (Except.ok (), ev0 ++ emitInfo lvl "Base Environment versions:"
      ++ base_env_versions.flatMap (fun nv => emitInfo lvl (nv.1 ++ ": " ++ nv.2)))
  | Except.error e =>
    (Except.ok (), ev0 ++ emitError lvl e.debugFmt)

/-- pub fn run of src/manage_obs_env.rs: install the max log level, build the
environment from the configured path, validate the action with get_action
(propagating its error), and dispatch.  The constructor with_destination is a
parameter since the ObservingEnvironment source is external; the summarize
call of the PrintConfig arm happens inside a log info macro, so it occurs only
when info records are enabled. -/
def run (with_destination : String → ObsEnvBehavior) (config : ManageObsEnv) :
    Except DynError Unit × List Event :=
  let lvl := config.get_log_level
  let ev0 := emitInfo lvl "Running manage obs env..."
  let obs_env := with_destination config.get_env_path
  match config.get_action with
  | Except.error e => (Except.error e, ev0)
  | Except.ok Action.Setup =>
    let r := runSetup lvl obs_env
    (r.1, ev0 ++ r.2)
  | Except.ok Action.PrintConfig =>
    (Except.ok (), ev0 ++
      (if 3 ≤ lvl.toMaxLevel then
        [Event.callSummarize, Event.logInfo obs_env.summarize]
      else []))
  | Except.ok Action.Reset =>
    let r := runReset lvl obs_env config.get_base_env_source_repo
    (r.1, ev0 ++ r.2)
  | Except.ok Action.ShowCurrentVersions =>
    let r := runShowCurrentVersions lvl obs_env
    (r.1, ev0 ++ r.2)
  | Except.ok Action.ShowOriginalVersions =>
    let r := runShowOriginalVersions lvl obs_env config.get_base_env_source_repo
    (r.1, ev0 ++ r.2)
  | Except.ok Action.CheckoutBranch =>
    let ev := [Event.callCheckoutBranch config.get_repository_name config.get_branch_name]
    match obs_env.checkout_branch config.get_repository_name config.get_branch_name with
    | Except.error e => (Except.error e, ev0 ++ ev)
    | Except.ok _ => (Except.ok (), ev0 ++ ev)
  | Except.ok Action.CheckoutVersion =>
    let ev := [Event.callResetIndexToVersion config.get_repository_name config.get_version]
    match obs_env.reset_index_to_version config.get_repository_name config.get_version with
    | Except.error e => (Except.error e, ev0 ++ ev)
    | Except.ok _ => (Except.ok (), ev0 ++ ev)

/-- Messages of the error records of an event trace, in order. -/
def errorMsgs : List Event → List String
  | [] => []
  | Event.logError msg :: rest => msg :: errorMsgs rest
  | _ :: rest => errorMsgs rest

/-- Collaborator behavior with every operation succeeding; used to instantiate
universally quantified theorems at concrete inputs. -/
def allOkEnv : ObsEnvBehavior :=
  ⟨Except.ok (), [], "config summary", fun _ => Except.ok (), [],
    fun _ => Except.ok [], fun _ _ => Except.ok (), fun _ _ => Except.ok ()⟩

/-- Collaborator behavior whose reset_base_environment reports two failed
repositories; every other operation succeeds. -/
def failingResetEnv : ObsEnvBehavior :=
  ⟨Except.ok (), [], "config summary",
    fun _ => Except.error [DynError.backend "auxtel checkout failed",
      DynError.backend "maintel checkout failed"],
    [], fun _ => Except.ok [], fun _ _ => Except.ok (), fun _ _ => Except.ok ()⟩

/-- Collaborator behavior whose base-version resolver fails; every other
operation succeeds. -/
def failingResolverEnv : ObsEnvBehavior :=
  ⟨Except.ok (), [], "config summary", fun _ => Except.ok (), [],
    fun _ => Except.error (DynError.backend "resolver unavailable"),
    fun _ _ => Except.ok (), fun _ _ => Except.ok ()⟩

/-- Collaborator behavior whose reset_index_to_version fails; every other
operation succeeds. -/
def failingVersionEnv : ObsEnvBehavior :=
  ⟨Except.ok (), [], "config summary", fun _ => Except.ok (), [],
    fun _ => Except.ok [], fun _ _ => Except.ok (),
    fun _ _ => Except.error (DynError.backend "vcs failure")⟩

/-- Collaborator behavior whose create_path fails; every other operation
succeeds. -/
def failingPathEnv : ObsEnvBehavior :=
  ⟨Except.error (DynError.backend "permission denied"),
    [Except.ok ⟨"/obs-env/repoA"⟩], "config summary", fun _ => Except.ok (), [],
    fun _ => Except.ok [], fun _ _ => Except.ok (), fun _ _ => Except.ok ()⟩

/-- Collaborator behavior with a mixed clone outcome: repoA and repoC clone,
repoB fails. -/
def cloneMixEnv : ObsEnvBehavior :=
  ⟨Except.ok (),
    [Except.ok ⟨"/obs-env/repoA"⟩, Except.error (DynError.backend "clone of repoB failed"),
      Except.ok ⟨"/obs-env/repoC"⟩],
    "config summary", fun _ => Except.ok (), [], fun _ => Except.ok [],
    fun _ _ => Except.ok (), fun _ _ => Except.ok ()⟩

/-- Collaborator behavior with mixed current-version outcomes: repoA reports a
version, repoB and repoC fail. -/
def versionsMixEnv : ObsEnvBehavior :=
  ⟨Except.ok (), [], "config summary", fun _ => Except.ok (),
    [("repoA", Except.ok "v1"), ("repoB", Except.error (DynError.backend "missing")),
      ("repoC", Except.error (DynError.backend "dirty tree"))],
    fun _ => Except.ok [], fun _ _ => Except.ok (), fun _ _ => Except.ok ()⟩

/-- Collaborator behavior in which two distinct repositories both fail to
clone with the same backend error detail; every other operation succeeds. -/
def cloneTwinFailEnv : ObsEnvBehavior :=
  ⟨Except.ok (),
    [Except.error (DynError.backend "timeout"), Except.error (DynError.backend "timeout")],
    "config summary", fun _ => Except.ok (), [], fun _ => Except.ok [],
    fun _ _ => Except.ok (), fun _ _ => Except.ok ()⟩

/-- Concrete configuration: CheckoutBranch with no repository. -/
def cfgBranchNoRepo : ManageObsEnv :=
  ⟨Action.CheckoutBranch, LogLevel.Debug, "/obs-env", none, "tickets/DM-1", "main"⟩

/-- Concrete configuration: CheckoutVersion with no repository. -/
def cfgVersionNoRepo : ManageObsEnv :=
  ⟨Action.CheckoutVersion, LogLevel.Info, "/obs-env", none, "v1.0", "main"⟩

/-- Concrete configuration: CheckoutVersion on repoA. -/
def cfgVersionRepo : ManageObsEnv :=
  ⟨Action.CheckoutVersion, LogLevel.Error, "/obs-env", some ⟨"repoA"⟩, "v2.0", "main"⟩

/-- Concrete configuration: Reset with the default reference branch. -/
def cfgReset : ManageObsEnv :=
  ⟨Action.Reset, LogLevel.Debug, "/obs-env", none, "", "main"⟩

/-- Concrete configuration: ShowOriginalVersions with the default reference
branch. -/
def cfgShowOriginal : ManageObsEnv :=
  ⟨Action.ShowOriginalVersions, LogLevel.Info, "/obs-env", none, "", "main"⟩

/-- Concrete configuration: Setup. -/
def cfgSetup : ManageObsEnv :=
  ⟨Action.Setup, LogLevel.Info, "/obs-env", none, "", "main"⟩

/-- Concrete configuration: PrintConfig. -/
def cfgPrint : ManageObsEnv :=
  ⟨Action.PrintConfig, LogLevel.Warn, "/obs-env", none, "", "main"⟩

/-- Concrete configuration: ShowCurrentVersions. -/
def cfgShowCurrent : ManageObsEnv :=
  ⟨Action.ShowCurrentVersions, LogLevel.Warn, "/obs-env", none, "", "main"⟩

theorem emitError_eq (lvl : LogLevel) (msg : String) :
    emitError lvl msg = [Event.logError msg] := by
  cases lvl <;> rfl

theorem filter_isCall_emitInfo (lvl : LogLevel) (msg : String) :
    (emitInfo lvl msg).filter Event.isCall = [] := by
  cases lvl <;> rfl

theorem filter_isCall_emitDebug (lvl : LogLevel) (msg : String) :
    (emitDebug lvl msg).filter Event.isCall = [] := by
  cases lvl <;> rfl

theorem filter_isCall_emitError (lvl : LogLevel) (msg : String) :
    (emitError lvl msg).filter Event.isCall = [] := by
  cases lvl <;> rfl

theorem errorMsgs_append (l₁ l₂ : List Event) :
    errorMsgs (l₁ ++ l₂) = errorMsgs l₁ ++ errorMsgs l₂ := by
  induction l₁ with
  | nil => rfl
  | cons a t ih => cases a <;> simp [errorMsgs, ih]

theorem errorMsgs_emitInfo (lvl : LogLevel) (msg : String) :
    errorMsgs (emitInfo lvl msg) = [] := by
  cases lvl <;> rfl

theorem errorMsgs_emitDebug (lvl : LogLevel) (msg : String) :
    errorMsgs (emitDebug lvl msg) = [] := by
  cases lvl <;> rfl

theorem errorMsgs_emitError (lvl : LogLevel) (msg : String) :
    errorMsgs (emitError lvl msg) = [msg] := by
  cases lvl <;> rfl

theorem errorMsgs_flatMap {α : Type} (l : List α) (f : α → List Event)
    (g : α → List String) (h : ∀ x, errorMsgs (f x) = g x) :
    errorMsgs (l.flatMap f) = l.flatMap g := by
  induction l with
  | nil => rfl
  | cons a t ih => simp [List.flatMap_cons, errorMsgs_append, h, ih]

theorem filter_isCall_flatMap_nil {α : Type} (l : List α) (f : α → List Event)
    (h : ∀ x, (f x).filter Event.isCall = []) :
    (l.flatMap f).filter Event.isCall = [] := by
  induction l with
  | nil => rfl
  | cons a t ih => simp [List.flatMap_cons, List.filter_append, h, ih]

theorem flatMap_singleton_map {α β : Type} (l : List α) (g : α → β) :
    (l.flatMap fun x => [g x]) = l.map g := by
  induction l with
  | nil => rfl
  | cons a t ih => simp [List.flatMap_cons, ih]

theorem filter_isCall_cloneReport (lvl : LogLevel)
    (r : Except DynError RepositoryInstance) :
    (cloneReport lvl r).filter Event.isCall = [] := by
  cases r <;> simp [cloneReport, filter_isCall_emitInfo, filter_isCall_emitError]

theorem errorMsgs_cloneReport (lvl : LogLevel)
    (r : Except DynError RepositoryInstance) :
    errorMsgs (cloneReport lvl r) = cloneFailMsg r := by
  cases r <;> simp [cloneReport, cloneFailMsg, errorMsgs_emitInfo, errorMsgs_emitError]

theorem filter_isCall_versionReport (lvl : LogLevel)
    (nv : String × Except DynError String) :
    (versionReport lvl nv).filter Event.isCall = [] := by
  rcases nv with ⟨name, v⟩
  cases v <;> simp [versionReport, filter_isCall_emitInfo, filter_isCall_emitError]

theorem errorMsgs_versionReport (lvl : LogLevel)
    (nv : String × Except DynError String) :
    errorMsgs (versionReport lvl nv) = versionFailMsg nv := by
  rcases nv with ⟨name, v⟩
  cases v <;>
    simp [versionReport, versionFailMsg, errorMsgs_emitInfo, errorMsgs_emitError]

theorem runSetup_ok (lvl : LogLevel) (env : ObsEnvBehavior)
    (hc : env.create_path = Except.ok ()) :
    (runSetup lvl env).1 = Except.ok () ∧
    (runSetup lvl env).2.filter Event.isCall
      = [Event.callCreatePath, Event.callCloneRepositories] ∧
    errorMsgs (runSetup lvl env).2 = env.clone_repositories.flatMap cloneFailMsg := by
  have hfilter := filter_isCall_flatMap_nil env.clone_repositories (cloneReport lvl)
    (filter_isCall_cloneReport lvl)
  have hmsgs := errorMsgs_flatMap env.clone_repositories (cloneReport lvl)
    cloneFailMsg (errorMsgs_cloneReport lvl)
  refine ⟨?_, ?_, ?_⟩ <;>
    simp [runSetup, hc, List.filter_append, filter_isCall_emitInfo,
      filter_isCall_emitDebug, Event.isCall, errorMsgs_append, errorMsgs_emitInfo,
      errorMsgs_emitDebug, errorMsgs, hfilter, hmsgs]

theorem runSetup_err (lvl : LogLevel) (env : ObsEnvBehavior) (e : DynError)
    (hc : env.create_path = Except.error e) :
    (runSetup lvl env).1 = Except.error e ∧
    (runSetup lvl env).2.filter Event.isCall = [Event.callCreatePath] := by
  refine ⟨?_, ?_⟩ <;>
    simp [runSetup, hc, List.filter_append, filter_isCall_emitInfo,
      filter_isCall_emitDebug, Event.isCall]

theorem runReset_err (lvl : LogLevel) (env : ObsEnvBehavior) (base : String)
    (errs : List DynError) (hr : env.reset_base_environment base = Except.error errs) :
    errorMsgs (runReset lvl env base).2
      = ("Error resetting " ++ toString errs.length ++ " repositories.")
          :: errs.map DynError.debugFmt := by
  have hmsgs := errorMsgs_flatMap errs (fun err => emitError lvl err.debugFmt)
    (fun err => [err.debugFmt]) (fun err => errorMsgs_emitError lvl err.debugFmt)
  simp [runReset, hr, errorMsgs_append, errorMsgs_emitInfo, errorMsgs_emitError,
    errorMsgs, hmsgs, flatMap_singleton_map]

theorem runShowCurrentVersions_msgs (lvl : LogLevel) (env : ObsEnvBehavior) :
    errorMsgs (runShowCurrentVersions lvl env).2
      = env.get_current_env_versions.flatMap versionFailMsg := by
  have hmsgs := errorMsgs_flatMap env.get_current_env_versions (versionReport lvl)
    versionFailMsg (errorMsgs_versionReport lvl)
  simp [runShowCurrentVersions, errorMsgs_append, errorMsgs_emitInfo, errorMsgs,
    hmsgs]

theorem get_action_of_ne (c : ManageObsEnv) (h : c.action ≠ Action.CheckoutBranch) :
    c.get_action = Except.ok c.action := by
  cases ha : c.action <;>
    first
      | exact absurd ha h
      | simp [ManageObsEnv.get_action, ha]

theorem get_action_branch_none (c : ManageObsEnv)
    (ha : c.action = Action.CheckoutBranch) (hr : c.repository = none) :
    c.get_action = Except.error (DynError.obsEnv (ObsEnvError.ERROR
      "Checkout branch action requires a repository, none given")) := by
  simp [ManageObsEnv.get_action, ha, hr]

theorem get_action_branch_some (c : ManageObsEnv)
    (ha : c.action = Action.CheckoutBranch) (hr : c.repository.isSome = true) :
    c.get_action = Except.ok c.action := by
  rcases hrep : c.repository with _ | r
  · rw [hrep] at hr
    simp at hr
  · simp [ManageObsEnv.get_action, ha, hrep]

/-- C2: for every configuration with the CheckoutBranch action and no
repository, get_action returns the configuration error, run propagates
exactly that error, and the event trace contains no collaborator call (in
particular no checkout_branch call). -/
theorem C2_checkout_branch_requires_repository (wd : String → ObsEnvBehavior)
    (config : ManageObsEnv) (ha : config.action = Action.CheckoutBranch)
    (hr : config.repository = none) :
    config.get_action = Except.error (DynError.obsEnv (ObsEnvError.ERROR
      "Checkout branch action requires a repository, none given")) ∧
    (run wd config).1 = Except.error (DynError.obsEnv (ObsEnvError.ERROR
      "Checkout branch action requires a repository, none given")) ∧
    (run wd config).2.filter Event.isCall = [] := by
  have hga := get_action_branch_none config ha hr
  refine ⟨hga, ?_, ?_⟩ <;> simp [run, hga, filter_isCall_emitInfo]

/-- Witness for C2 at a concrete configuration. -/
theorem C2_checkout_branch_requires_repository_witness :
    cfgBranchNoRepo.get_action = Except.error (DynError.obsEnv (ObsEnvError.ERROR
      "Checkout branch action requires a repository, none given")) ∧
    (run (fun _ => allOkEnv) cfgBranchNoRepo).1 = Except.error (DynError.obsEnv
      (ObsEnvError.ERROR "Checkout branch action requires a repository, none given")) ∧
    (run (fun _ => allOkEnv) cfgBranchNoRepo).2.filter Event.isCall = [] :=
  C2_checkout_branch_requires_repository (fun _ => allOkEnv) cfgBranchNoRepo rfl rfl

/-- C3 counterexample: the default of the log-level parameter is Debug, which
is not the middle element Info of the five-level enum. -/
theorem C3_default_log_level_counterexample :
    (defaultManageObsEnv Action.Setup).log_level = LogLevel.Debug ∧
    ¬ (defaultManageObsEnv Action.Setup).log_level = LogLevel.Info :=
  ⟨rfl, by decide⟩

/-- C3 (amended): for every action, the default of the log-level parameter is
Debug, the second element of the enum Trace, Debug, Info, Warn, Error and the
second-most verbose level (filter rank 4 of 5), not the middle element
Info. -/
theorem C3_default_log_level_is_debug (a : Action) :
    (defaultManageObsEnv a).log_level = LogLevel.Debug ∧
    (defaultManageObsEnv a).log_level.toMaxLevel = 4 :=
  ⟨rfl, rfl⟩

/-- C4: for every configuration whose action is not CheckoutBranch, get_action
returns Ok with the configured action, whether or not a repository is present;
the repository-presence validation applies only to CheckoutBranch. -/
theorem C4_validation_only_for_checkout_branch (config : ManageObsEnv)
    (h : config.action ≠ Action.CheckoutBranch) :
    config.get_action = Except.ok config.action :=
  get_action_of_ne config h

/-- Witness for C4: CheckoutVersion with no repository still validates. -/
theorem C4_validation_only_for_checkout_branch_witness :
    cfgVersionNoRepo.get_action = Except.ok cfgVersionNoRepo.action :=
  C4_validation_only_for_checkout_branch cfgVersionNoRepo (by decide)

/-- C9: get_version and get_branch_name both read the branch_name field and
agree on every configuration; consequently the CheckoutVersion arm of run
passes the branch-name argument as the version to reset_index_to_version. -/
theorem C9_get_version_eq_get_branch_name (wd : String → ObsEnvBehavior)
    (config : ManageObsEnv) :
    config.get_version = config.get_branch_name ∧
    (config.action = Action.CheckoutVersion →
      (run wd config).2.filter Event.isCall =
        [Event.callResetIndexToVersion config.get_repository_name config.branch_name]) := by
  refine ⟨rfl, fun ha => ?_⟩
  have hga : config.get_action = Except.ok config.action :=
    get_action_of_ne config (by simp [ha])
  rw [ha] at hga
  simp only [run, hga, ManageObsEnv.get_version]
  cases (wd config.get_env_path).reset_index_to_version config.get_repository_name
      config.branch_name <;>
    simp [List.filter_append, filter_isCall_emitInfo, Event.isCall]

/-- Witness for C9 at a concrete CheckoutVersion configuration. -/
theorem C9_get_version_eq_get_branch_name_witness :
    cfgVersionRepo.get_version = cfgVersionRepo.get_branch_name ∧
    (run (fun _ => allOkEnv) cfgVersionRepo).2.filter Event.isCall =
      [Event.callResetIndexToVersion cfgVersionRepo.get_repository_name
        cfgVersionRepo.branch_name] :=
  ⟨(C9_get_version_eq_get_branch_name (fun _ => allOkEnv) cfgVersionRepo).1,
    (C9_get_version_eq_get_branch_name (fun _ => allOkEnv) cfgVersionRepo).2 rfl⟩

/-- C10: with no repository configured, get_repository_name returns the empty
string; a CheckoutVersion action without a repository passes validation and
run invokes reset_index_to_version with the empty string as the repository
name. -/
theorem C10_missing_repository_empty_name (wd : String → ObsEnvBehavior)
    (config : ManageObsEnv) (hr : config.repository = none) :
    config.get_repository_name = "" ∧
    (config.action = Action.CheckoutVersion →
      config.get_action = Except.ok Action.CheckoutVersion ∧
      (run wd config).2.filter Event.isCall =
        [Event.callResetIndexToVersion "" config.get_version]) := by
  have hname : config.get_repository_name = "" := by
    simp [ManageObsEnv.get_repository_name, hr]
  refine ⟨hname, fun ha => ?_⟩
  have hga : config.get_action = Except.ok config.action :=
    get_action_of_ne config (by simp [ha])
  rw [ha] at hga
  refine ⟨hga, ?_⟩
  simp only [run, hga, hname]
  cases (wd config.get_env_path).reset_index_to_version "" config.get_version <;>
    simp [List.filter_append, filter_isCall_emitInfo, Event.isCall]

/-- C1 (amended): run returns its get_action error when validation fails; for
Setup it returns exactly create_path's result; for CheckoutBranch and
CheckoutVersion exactly the backend-facing call's result; and for
PrintConfig, Reset, ShowCurrentVersions and ShowOriginalVersions it returns
Ok even when the underlying operation failed — those failures are only
logged, never turned into an error exit. -/
theorem C1_run_exit_characterization (wd : String → ObsEnvBehavior)
    (config : ManageObsEnv) :
    (run wd config).1 =
      (match config.get_action with
       | Except.error e => Except.error e
       | Except.ok Action.Setup => (wd config.get_env_path).create_path
       | Except.ok Action.CheckoutBranch =>
         (wd config.get_env_path).checkout_branch config.get_repository_name
           config.get_branch_name
       | Except.ok Action.CheckoutVersion =>
         (wd config.get_env_path).reset_index_to_version config.get_repository_name
           config.get_version
       | Except.ok _ => Except.ok ()) := by
  rcases hga : config.get_action with e | a
  · simp [run, hga]
  · cases a
    case Setup =>
      simp only [run, hga, runSetup]
      rcases (wd config.get_env_path).create_path with e | u
      · simp
      · cases u
        simp
    case PrintConfig => simp [run, hga]
    case Reset =>
      simp only [run, hga, runReset]
      cases (wd config.get_env_path).reset_base_environment
          config.get_base_env_source_repo <;> simp
    case ShowCurrentVersions => simp [run, hga, runShowCurrentVersions]
    case ShowOriginalVersions =>
      simp only [run, hga, runShowOriginalVersions]
      cases (wd config.get_env_path).get_base_env_versions
          config.get_base_env_source_repo <;> simp
    case CheckoutBranch =>
      simp only [run, hga]
      rcases (wd config.get_env_path).checkout_branch config.get_repository_name
          config.get_branch_name with e | u
      · simp
      · cases u
        simp
    case CheckoutVersion =>
      simp only [run, hga]
      rcases (wd config.get_env_path).reset_index_to_version config.get_repository_name
          config.get_version with e | u
      · simp
      · cases u
        simp

/-- C1 counterexample: with the Reset action, reset_base_environment reports a
non-empty failure list, yet run returns Ok instead of an error; likewise
ShowOriginalVersions returns Ok when get_base_env_versions reports a resolver
error.  This refutes the claim that run errors whenever the dispatched
action's underlying Result is an error. -/
theorem C1_reset_failures_swallowed_counterexample :
    failingResetEnv.reset_base_environment cfgReset.get_base_env_source_repo
      = Except.error [DynError.backend "auxtel checkout failed",
          DynError.backend "maintel checkout failed"] ∧
    (run (fun _ => failingResetEnv) cfgReset).1 = Except.ok () ∧
    failingResolverEnv.get_base_env_versions cfgShowOriginal.get_base_env_source_repo
      = Except.error (DynError.backend "resolver unavailable") ∧
    (run (fun _ => failingResolverEnv) cfgShowOriginal).1 = Except.ok () :=
  ⟨rfl, rfl, rfl, rfl⟩

/-- C5: for the single-repository actions, an error from the backend-facing
call (checkout_branch for CheckoutBranch, reset_index_to_version for
CheckoutVersion) is propagated by run to its caller as an error rather than
logged and swallowed. -/
theorem C5_single_repository_errors_propagate (wd : String → ObsEnvBehavior)
    (config : ManageObsEnv) (e : DynError)
    (h : (config.action = Action.CheckoutBranch ∧ config.repository.isSome = true ∧
        (wd config.get_env_path).checkout_branch config.get_repository_name
          config.get_branch_name = Except.error e) ∨
      (config.action = Action.CheckoutVersion ∧
        (wd config.get_env_path).reset_index_to_version config.get_repository_name
          config.get_version = Except.error e)) :
    (run wd config).1 = Except.error e := by
  rcases h with ⟨ha, hs, hb⟩ | ⟨ha, hb⟩
  · have hga := get_action_branch_some config ha hs
    rw [ha] at hga
    simp [run, hga, hb]
  · have hga : config.get_action = Except.ok config.action :=
      get_action_of_ne config (by simp [ha])
    rw [ha] at hga
    simp [run, hga, hb]

/-- Witness for C5: a CheckoutVersion whose backend call fails makes run
return that error. -/
theorem C5_single_repository_errors_propagate_witness :
    (run (fun _ => failingVersionEnv) cfgVersionRepo).1
      = Except.error (DynError.backend "vcs failure") :=
  C5_single_repository_errors_propagate (fun _ => failingVersionEnv) cfgVersionRepo
    (DynError.backend "vcs failure") (Or.inr ⟨rfl, rfl⟩)

/-- C8: for every configuration with the PrintConfig action, at any log level
and parameter values and over any collaborator behavior, run returns Ok. -/
theorem C8_print_config_always_ok (wd : String → ObsEnvBehavior)
    (config : ManageObsEnv) (h : config.action = Action.PrintConfig) :
    (run wd config).1 = Except.ok () := by
  have hga : config.get_action = Except.ok config.action :=
    get_action_of_ne config (by simp [h])
  rw [h] at hga
  simp [run, hga]

/-- Witness for C8 at a concrete PrintConfig configuration. -/
theorem C8_print_config_always_ok_witness :
    (run (fun _ => allOkEnv) cfgPrint).1 = Except.ok () :=
  C8_print_config_always_ok (fun _ => allOkEnv) cfgPrint rfl

/-- Witness for C10 at a concrete CheckoutVersion configuration without a
repository. -/
theorem C10_missing_repository_empty_name_witness :
    cfgVersionNoRepo.get_repository_name = "" ∧
    (cfgVersionNoRepo.get_action = Except.ok Action.CheckoutVersion ∧
      (run (fun _ => allOkEnv) cfgVersionNoRepo).2.filter Event.isCall =
        [Event.callResetIndexToVersion "" cfgVersionNoRepo.get_version]) :=
  ⟨(C10_missing_repository_empty_name (fun _ => allOkEnv) cfgVersionNoRepo rfl).1,
    (C10_missing_repository_empty_name (fun _ => allOkEnv) cfgVersionNoRepo rfl).2 rfl⟩

/-- C6: for the Setup action, run calls create_path and only afterwards
clone_repositories; if create_path fails, run returns its error and the trace
shows no clone call; if it succeeds, run returns Ok regardless of
per-repository clone failures, the clone call follows the create_path call,
and each clone failure is reported by its own error record. -/
theorem C6_setup_path_then_clone (wd : String → ObsEnvBehavior)
    (config : ManageObsEnv) (h : config.action = Action.Setup) :
    (∀ e, (wd config.get_env_path).create_path = Except.error e →
      (run wd config).1 = Except.error e ∧
      (run wd config).2.filter Event.isCall = [Event.callCreatePath]) ∧
    ((wd config.get_env_path).create_path = Except.ok () →
      (run wd config).1 = Except.ok () ∧
      (run wd config).2.filter Event.isCall
        = [Event.callCreatePath, Event.callCloneRepositories] ∧
      errorMsgs (run wd config).2
        = (wd config.get_env_path).clone_repositories.flatMap cloneFailMsg) := by
  have hga : config.get_action = Except.ok config.action :=
    get_action_of_ne config (by simp [h])
  rw [h] at hga
  constructor
  · intro e hc
    have hs := runSetup_err config.get_log_level (wd config.get_env_path) e hc
    constructor
    · simp [run, hga, hs.1]
    · simp [run, hga, List.filter_append, filter_isCall_emitInfo, hs.2]
  · intro hc
    have hs := runSetup_ok config.get_log_level (wd config.get_env_path) hc
    refine ⟨?_, ?_, ?_⟩
    · simp [run, hga, hs.1]
    · simp [run, hga, List.filter_append, filter_isCall_emitInfo, hs.2.1]
    · simp [run, hga, errorMsgs_append, errorMsgs_emitInfo, hs.2.2]

/-- Witness for C6: Setup over a behavior whose create_path succeeds and whose
clone batch has one failure among successes. -/
theorem C6_setup_path_then_clone_witness :
    (run (fun _ => cloneMixEnv) cfgSetup).1 = Except.ok () ∧
    (run (fun _ => cloneMixEnv) cfgSetup).2.filter Event.isCall
      = [Event.callCreatePath, Event.callCloneRepositories] ∧
    errorMsgs (run (fun _ => cloneMixEnv) cfgSetup).2
      = cloneMixEnv.clone_repositories.flatMap cloneFailMsg :=
  (C6_setup_path_then_clone (fun _ => cloneMixEnv) cfgSetup rfl).2 rfl

/-- C7 counterexample: in a Setup batch where two distinct repositories fail
to clone, the two emitted reports are the identical string "Failed to clone:
timeout" — each record carries only the fixed prefix and the error's Debug
rendering, no repository identity, so the reports cannot distinguish which
repository failed.  This refutes the claim that every batch-failure report
carries identity plus error detail; Reset behaves the same, logging only the
Debug rendering of each failure after the count header. -/
theorem C7_setup_reports_lack_identity_counterexample :
    errorMsgs (run (fun _ => cloneTwinFailEnv) cfgSetup).2
      = ["Failed to clone: timeout", "Failed to clone: timeout"] := rfl

/-- C7 (amended): in each batch action run emits one error record per
per-repository failure, iterating the whole returned collection without
stopping at the first failure, but only ShowCurrentVersions tags the report
with the repository identity: for Setup (after a successful create_path) the
error-record messages are exactly "Failed to clone: " plus the error's Debug
rendering, one per failed clone in order; for Reset with failure list errs
they are the count header followed by the bare Debug rendering of each
failure in order; for ShowCurrentVersions exactly one per repository whose
version query failed, tagged with the repository name. -/
theorem C7_batch_failures_reported_individually (wd : String → ObsEnvBehavior)
    (config : ManageObsEnv) :
    (config.action = Action.Setup →
      (wd config.get_env_path).create_path = Except.ok () →
      errorMsgs (run wd config).2
        = (wd config.get_env_path).clone_repositories.flatMap cloneFailMsg) ∧
    (∀ errs, config.action = Action.Reset →
      (wd config.get_env_path).reset_base_environment config.get_base_env_source_repo
        = Except.error errs →
      errorMsgs (run wd config).2
        = ("Error resetting " ++ toString errs.length ++ " repositories.")
            :: errs.map DynError.debugFmt) ∧
    (config.action = Action.ShowCurrentVersions →
      errorMsgs (run wd config).2
        = (wd config.get_env_path).get_current_env_versions.flatMap versionFailMsg) := by
  refine ⟨fun ha hc => ?_, fun errs ha hr => ?_, fun ha => ?_⟩
  · have hga : config.get_action = Except.ok config.action :=
      get_action_of_ne config (by simp [ha])
    rw [ha] at hga
    have hs := runSetup_ok config.get_log_level (wd config.get_env_path) hc
    simp [run, hga, errorMsgs_append, errorMsgs_emitInfo, hs.2.2]
  · have hga : config.get_action = Except.ok config.action :=
      get_action_of_ne config (by simp [ha])
    rw [ha] at hga
    have hr2 := runReset_err config.get_log_level (wd config.get_env_path)
      config.get_base_env_source_repo errs hr
    simp [run, hga, errorMsgs_append, errorMsgs_emitInfo, hr2]
  · have hga : config.get_action = Except.ok config.action :=
      get_action_of_ne config (by simp [ha])
    rw [ha] at hga
    simp [run, hga, errorMsgs_append, errorMsgs_emitInfo,
      runShowCurrentVersions_msgs]

/-- Witness for C7: ShowCurrentVersions over a behavior with two failed
queries among three repositories reports exactly those two, in order. -/
theorem C7_batch_failures_reported_individually_witness :
    errorMsgs (run (fun _ => versionsMixEnv) cfgShowCurrent).2
      = versionsMixEnv.get_current_env_versions.flatMap versionFailMsg ∧
    versionsMixEnv.get_current_env_versions.flatMap versionFailMsg
      = ["repoB: missing", "repoC: dirty tree"] :=
  ⟨(C7_batch_failures_reported_individually (fun _ => versionsMixEnv)
      cfgShowCurrent).2.2 rfl, rfl⟩

end ObsEnvSpec
